import Mathlib

/-!
Shallow embedding of `src/src/product/product.repository.ts` (ProductRepo).

The database is modelled as an explicit state: a list of `product` rows and a
list of `branch` rows.  Each repository method becomes a pure Lean function on
that state; methods that mutate the database also return the new state, and
methods that can throw return `Except String`.

External semantics that the repository merely delegates to are modelled
explicitly where the claims depend on them, and abstractly otherwise:
  * PostgreSQL `ILIKE` is modelled by `likeMatch`, a casefolded `LIKE`
    pattern matcher over `%` and `_` wildcards;
  * the full-text condition `to_tsvector('simple', name) @@ plainto_tsquery(q)`
    is an arbitrary parameter `ft : String → String → Bool` (its behaviour is
    PostgreSQL's, not this repository's);
  * the node driver's serialization of a raw JS array bound as a parameter
    (used by `updateProduct` for `tegs`) is an arbitrary parameter
    `drv : List String → String`;
  * `ORDER BY updated_at DESC` is modelled as a stable descending insertion
    sort on the `updated_at` key;
  * array columns (`tegs`, `image`) store the bound text value: `Option String`,
    `none` for SQL NULL.
-/

namespace ScannerPOS

/-- A row of the `product` table, with the array columns `tegs` and `image`
holding the textual value bound at write time (`none` = SQL NULL). -/
structure Product where
  barcode : String
  name : String
  branch_id : Int
  price : Int
  stock : Int
  real_price : Int
  category_id : Int
  description : Option String
  tegs : Option String
  image : Option String
  updated_at : Nat
deriving Repr, DecidableEq

/-- A row of the `branch` table (only `id` and `name` are consumed). -/
structure Branch where
  id : Int
  name : String
deriving Repr, DecidableEq

/-- The database state seen by the repository. -/
structure DB where
  products : List Product
  branches : List Branch
deriving Repr, DecidableEq

/-- SQL `LIKE` pattern matching over characters: `%` matches any sequence,
`_` matches any single character, anything else matches itself. -/
def likeMatch : List Char → List Char → Bool
  | [], [] => true
  | [], _ :: _ => false
  | '%' :: ps, [] => likeMatch ps []
  | '%' :: ps, c :: s => likeMatch ps (c :: s) || likeMatch ('%' :: ps) s
  | '_' :: _, [] => false
  | '_' :: ps, _ :: s => likeMatch ps s
  | _ :: _, [] => false
  | p :: ps, c :: s => (p == c) && likeMatch ps s

/-- Model of `ILIKE`: case-insensitive `LIKE` (both sides casefolded). -/
def ilike (s pat : String) : Bool :=
  likeMatch (pat.toList.map Char.toLower) (s.toList.map Char.toLower)

/-- Whether `n` occurs as a contiguous segment of `h`. -/
def segMatch (n h : List Char) : Bool :=
  match h with
  | [] => n.isEmpty
  | _ :: t => n.isPrefixOf h || segMatch n t

/-- Case-insensitive substring test (the spec's notion of "case-insensitive
substring of"). -/
def ciSub (q s : String) : Bool :=
  segMatch (q.toList.map Char.toLower) (s.toList.map Char.toLower)

/-- Whitespace trimming of a character list at both ends. -/
def trimList (l : List Char) : List Char :=
  ((l.dropWhile Char.isWhitespace).reverse.dropWhile Char.isWhitespace).reverse

/-- Model of JavaScript `String.prototype.trim()`. -/
def jsTrim (s : String) : String :=
  String.mk (trimList s.toList)

/-- Model of `FROM product JOIN branch ON branch.id = product.branch_id`, producing
`(product row, branch.name AS branch_name)` pairs (nested-loop order). -/
def joinList (bs : List Branch) : List Product → List (Product × String)
  | [] => []
  | p :: ps => (bs.filter (fun b => b.id == p.branch_id)).map (fun b => (p, b.name))
      ++ joinList bs ps

/-- The joined rows of the database. -/
def joinRows (db : DB) : List (Product × String) :=
  joinList db.branches db.products

/-- Stable descending insertion into a list sorted descending by `key`. -/
def insertKeyDesc (key : α → Nat) (a : α) : List α → List α
  | [] => [a]
  | b :: bs => if key b < key a then a :: b :: bs else b :: insertKeyDesc key a bs

/-- Stable sort, descending by `key` (model of `ORDER BY updated_at DESC`). -/
def sortKeyDesc (key : α → Nat) : List α → List α
  | [] => []
  | a :: as => insertKeyDesc key a (sortKeyDesc key as)

/-- Model of `LIMIT limit OFFSET offset`. -/
def pageSlice (limit offset : Nat) (l : List α) : List α :=
  (l.drop offset).take limit

/-- The pagination block returned by the listing methods. -/
structure Pagination where
  total_records : Nat
  current_page : Nat
  total_pages : Nat
  next_page : Option Nat
  prev_page : Option Nat
deriving Repr, DecidableEq

/-- Result shape `\x7b data, pagination \x7d` of `getProducts` / `selectAllProduct`. -/
structure ListResult (α : Type) where
  data : List α
  pagination : Pagination
deriving Repr, DecidableEq

/-- The `WHERE` predicate of the `COUNT` query in `getProducts` (lines 68-80):
full-text match on `name` OR `name ILIKE ?` OR `barcode ILIKE ?`. -/
def countPred (ft : String → String → Bool) (fullText ilikeText : String)
    (r : Product × String) : Bool :=
  ft fullText r.1.name || ilike r.1.name ilikeText || ilike r.1.barcode ilikeText

/-- The `WHERE` predicate of the paginated data query in `getProducts`
(lines 82-96), transcribed separately from `countPred` as in the source. -/
def dataPred (ft : String → String → Bool) (fullText ilikeText : String)
    (r : Product × String) : Bool :=
  ft fullText r.1.name || ilike r.1.name ilikeText || ilike r.1.barcode ilikeText

/-- The `WHERE` predicate of `searchProductQuery` (lines 23-32). -/
def searchPred (ft : String → String → Bool) (fullText ilikeText : String)
    (r : Product × String) : Bool :=
  ft fullText r.1.name || ilike r.1.name ilikeText || ilike r.1.barcode ilikeText

/-- Model of `ProductRepo.getProducts(page, pageSize, q?)`: paginated listing with an
optional search filter.  The filter is applied when `q` is present, non-empty
and not all-whitespace (`q && q.trim() !== ''`). -/
def getProducts (ft : String → String → Bool) (db : DB)
    (page pageSize : Nat) (q : Option String) : ListResult (Product × String) :=
  let offset := (page - 1) * pageSize
  match q with
  | some qs =>
    if qs != "" && jsTrim qs != "" then
      let fullText := qs
      let ilikeText := "%" ++ qs ++ "%"
      let totalRecords := ((joinRows db).filter (countPred ft fullText ilikeText)).length
      let data := pageSlice pageSize offset
        (sortKeyDesc (fun r => r.1.updated_at)
          ((joinRows db).filter (dataPred ft fullText ilikeText)))
      let totalPages := (totalRecords + pageSize - 1) / pageSize
      { data := data
        pagination :=
          { total_records := totalRecords
            current_page := page
            total_pages := totalPages
            next_page := if page < totalPages then some (page + 1) else none
            prev_page := if 1 < page then some (page - 1) else none } }
    else
      let totalRecords := db.products.length
      let data := pageSlice pageSize offset
        (sortKeyDesc (fun r => r.1.updated_at) (joinRows db))
      let totalPages := (totalRecords + pageSize - 1) / pageSize
      { data := data
        pagination :=
          { total_records := totalRecords
            current_page := page
            total_pages := totalPages
            next_page := if page < totalPages then some (page + 1) else none
            prev_page := if 1 < page then some (page - 1) else none } }
  | none =>
    let totalRecords := db.products.length
    let data := pageSlice pageSize offset
      (sortKeyDesc (fun r => r.1.updated_at) (joinRows db))
    let totalPages := (totalRecords + pageSize - 1) / pageSize
    { data := data
      pagination :=
        { total_records := totalRecords
          current_page := page
          total_pages := totalPages
          next_page := if page < totalPages then some (page + 1) else none
          prev_page := if 1 < page then some (page - 1) else none } }

/-- Model of `ProductRepo.selectAllProduct(page, pageSize)`: `SELECT * FROM product`
(no join) ordered by `updated_at DESC`, with the same pagination arithmetic. -/
def selectAllProduct (db : DB) (page pageSize : Nat) : ListResult Product :=
  let offset := (page - 1) * pageSize
  let totalRecords := db.products.length
  let data := pageSlice pageSize offset
    (sortKeyDesc (fun p => p.updated_at) db.products)
  let totalPages := (totalRecords + pageSize - 1) / pageSize
  { data := data
    pagination :=
      { total_records := totalRecords
        current_page := page
        total_pages := totalPages
        next_page := if page < totalPages then some (page + 1) else none
        prev_page := if 1 < page then some (page - 1) else none } }

/-- Model of `ProductRepo.selectByIDProduct(barcode)`: first row with that barcode,
`none` when there is no match (`res.rows[0]` of `WHERE barcode = ?`). -/
def selectByIDProduct (db : DB) (barcode : String) : Option Product :=
  db.products.find? (fun p => p.barcode == barcode)

/-- Model of `ProductRepo.searchProduct(q)`: unpaginated tri-predicate search over the
joined rows. -/
def searchProduct (ft : String → String → Bool) (db : DB) (q : String) :
    List (Product × String) :=
  let fullText := q
  let ilikeText := "%" ++ q ++ "%"
  (joinRows db).filter (searchPred ft fullText ilikeText)

/-- The payload of `ProductRepo.createProduct`. -/
structure CreateData where
  barcode : String
  name : String
  branch_id : Int
  price : Int
  stock : Int
  category_id : Int
  description : Option String := none
  real_price : Int
  tegs : List String
  imageUrls : Option (List String) := none
deriving Repr, DecidableEq

/-- The PostgreSQL text-array literal built on create:
brace-wrapped, comma-joined, each element double-quoted. -/
def pgArrayLit (l : List String) : String :=
  "\x7b" ++ String.intercalate "," (l.map (fun s => "\"" ++ s ++ "\"")) ++ "\x7d"

/-- Model of `ProductRepo.createProduct(data)`: serializes `imageUrls`/`tegs` to an
array literal when non-empty (`null` otherwise), coerces a falsy
`description` (absent or `""`) to `null`, inserts the row and returns it.
`now` is the database-assigned `updated_at` timestamp. -/
def createProduct (db : DB) (now : Nat) (d : CreateData) : Product × DB :=
  let imageArrayPg : Option String :=
    match d.imageUrls with
    | some l => if l.length != 0 then some (pgArrayLit l) else none
    | none => none
  let tegsArrayPg : Option String :=
    if d.tegs.length != 0 then some (pgArrayLit d.tegs) else none
  let row : Product :=
    { barcode := d.barcode
      name := d.name
      branch_id := d.branch_id
      price := d.price
      stock := d.stock
      real_price := d.real_price
      category_id := d.category_id
      description :=
        match d.description with
        | some s => if s == "" then none else some s
        | none => none
      tegs := tegsArrayPg
      image := imageArrayPg
      updated_at := now }
  (row, { db with products := db.products ++ [row] })

/-- The partial payload of `ProductRepo.updateProduct` (`undefined` = `none`). -/
structure UpdateData where
  barcode : Option String := none
  name : Option String := none
  branch_id : Option Int := none
  price : Option Int := none
  stock : Option Int := none
  real_price : Option Int := none
  category_id : Option Int := none
  description : Option String := none
  tegs : Option (List String) := none
  imageUrls : Option (List String) := none
deriving Repr, DecidableEq

/-- Test `Object.keys(updateData).length !== 0`: some recognized field was
supplied (the fields tested at lines 227-240). -/
def hasAnyField (u : UpdateData) : Bool :=
  u.barcode.isSome || u.name.isSome || u.branch_id.isSome || u.price.isSome ||
  u.stock.isSome || u.real_price.isSome || u.tegs.isSome || u.category_id.isSome ||
  u.description.isSome || u.imageUrls.isSome

/-- Effect of the sparse `UPDATE ... SET` on one row: supplied fields
overwrite, others are kept.  `imageUrls` is serialized to an array literal
unconditionally (the source repeats the serialization expression inline);
`tegs` is passed through raw and serialized by the driver `drv`. -/
def applyU (drv : List String → String) (u : UpdateData) (p : Product) : Product :=
  { barcode := u.barcode.getD p.barcode
    name := u.name.getD p.name
    branch_id := u.branch_id.getD p.branch_id
    price := u.price.getD p.price
    stock := u.stock.getD p.stock
    real_price := u.real_price.getD p.real_price
    category_id := u.category_id.getD p.category_id
    description :=
      match u.description with
      | some s => some s
      | none => p.description
    tegs :=
      match u.tegs with
      | some t => some (drv t)
      | none => p.tegs
    image :=
      match u.imageUrls with
      | some l =>
          some ("\x7b" ++ String.intercalate "," (l.map (fun s => "\"" ++ s ++ "\"")) ++ "\x7d")
      | none => p.image
    updated_at := p.updated_at }

/-- Model of `ProductRepo.updateProduct(barcode, data)`: throws when no recognized
field is supplied; otherwise updates every row matching `barcode`, throws a
not-found error when none matched, and returns the first updated row. -/
def updateProduct (drv : List String → String) (db : DB) (bc : String)
    (u : UpdateData) : Except String Product × DB :=
  if hasAnyField u = false then
    (Except.error "Hech qanday field yuborilmadi!", db)
  else
    let newProducts := db.products.map (fun p => if p.barcode == bc then applyU drv u p else p)
    let returned := (db.products.filter (fun p => p.barcode == bc)).map (applyU drv u)
    match returned.head? with
    | none =>
        (Except.error ("Product with barcode " ++ bc ++ " not found"),
         { db with products := newProducts })
    | some r => (Except.ok r, { db with products := newProducts })

/-- Model of `ProductRepo.deleteProduct(barcode)`: deletes every row matching
`barcode` and returns the first deleted row (`none` when nothing matched). -/
def deleteProduct (db : DB) (bc : String) : Option Product × DB :=
  let deleted := db.products.filter (fun p => p.barcode == bc)
  (deleted.head?, { db with products := db.products.filter (fun p => !(p.barcode == bc)) })

/-- A full-text matcher that never matches (used as a concrete instance of
the abstract `to_tsvector ... @@ plainto_tsquery` parameter). -/
def ftNone : String → String → Bool := fun _ _ => false

/-- A concrete driver serialization for raw arrays (its exact behaviour is
irrelevant to the theorems that use it). -/
def drvJoin : List String → String := fun l => String.intercalate "," l

/-- A sample product row. -/
def mkProd (bc nm : String) (bid : Int) (ts : Nat) : Product :=
  { barcode := bc, name := nm, branch_id := bid, price := 10, stock := 5,
    real_price := 8, category_id := 1, description := none, tegs := none,
    image := none, updated_at := ts }

/-- A sample database in which every product's branch exists. -/
def dbMain : DB :=
  { products := [mkProd "001" "Milk 1L" 1 3, mkProd "002" "Bread" 1 2],
    branches := [{ id := 1, name := "Main" }] }

/-- A sample database with a product whose `branch_id` matches no branch. -/
def dbNoBranch : DB :=
  { products := [mkProd "001" "Milk 1L" 1 3], branches := [] }

/- ------------------------------------------------------------------ -/
/- Lemmas about the `LIKE` matcher.                                    -/
/- ------------------------------------------------------------------ -/

theorem likeMatch_pct (s : List Char) : likeMatch ['%'] s = true := by
  induction s with
  | nil => simp [likeMatch]
  | cons c t ih => simp [likeMatch, ih]

theorem likeMatch_pct_cons {ps s : List Char} (h : likeMatch ps s = true) :
    likeMatch ('%' :: ps) s = true := by
  cases s with
  | nil => simpa [likeMatch] using h
  | cons c t => simp [likeMatch, h]

theorem likeMatch_pct_prepend {ps s : List Char} (s₁ : List Char)
    (h : likeMatch ps s = true) : likeMatch ('%' :: ps) (s₁ ++ s) = true := by
  induction s₁ with
  | nil => simpa using likeMatch_pct_cons h
  | cons c t ih => simp [likeMatch, ih]

theorem likeMatch_seg (n s₂ : List Char) : likeMatch (n ++ ['%']) (n ++ s₂) = true := by
  induction n with
  | nil => simpa using likeMatch_pct s₂
  | cons c m ih =>
    show likeMatch (c :: (m ++ ['%'])) (c :: (m ++ s₂)) = true
    by_cases hc : c = '%'
    · subst hc
      have h2 := likeMatch_pct_cons ih
      simp [likeMatch, h2]
    · by_cases hu : c = '_'
      · subst hu; simp [likeMatch, ih]
      · simp [likeMatch, hc, hu, ih]

theorem segMatch_exists {n h : List Char} (hm : segMatch n h = true) :
    ∃ s t, s ++ n ++ t = h := by
  induction h with
  | nil =>
    have hn : n = [] := by simpa [segMatch, List.isEmpty_iff] using hm
    exact ⟨[], [], by simp [hn]⟩
  | cons c t ih =>
    rw [segMatch] at hm
    rcases Bool.or_eq_true_iff.mp hm with h1 | h2
    · obtain ⟨u, hu⟩ := List.isPrefixOf_iff_prefix.mp h1
      exact ⟨[], u, by simpa using hu⟩
    · obtain ⟨s', t', hst⟩ := ih h2
      exact ⟨c :: s', t', by simp [← hst]⟩

theorem ilike_of_ciSub {q s : String} (h : ciSub q s = true) :
    ilike s ("%" ++ q ++ "%") = true := by
  unfold ilike
  have hpat : ("%" ++ q ++ "%").toList = '%' :: q.toList ++ ['%'] := by
    simp [String.toList, String.data_append]
  rw [hpat]
  unfold ciSub at h
  obtain ⟨s₁, t₁, hst⟩ := segMatch_exists h
  rw [← hst]
  have hmap : ('%' :: q.toList ++ ['%']).map Char.toLower
      = '%' :: (q.toList.map Char.toLower ++ ['%']) := by
    simp
  rw [hmap, List.append_assoc]
  exact likeMatch_pct_prepend s₁ (likeMatch_seg _ t₁)

/- ------------------------------------------------------------------ -/
/- Lemmas about join, sort and slicing.                                -/
/- ------------------------------------------------------------------ -/

theorem map_fst_joinList {bs : List Branch} : ∀ {ps : List Product},
    (∀ p ∈ ps, (bs.filter (fun b => b.id == p.branch_id)).length = 1) →
    (joinList bs ps).map Prod.fst = ps := by
  intro ps
  induction ps with
  | nil => intro _; rfl
  | cons p ps ih =>
    intro h
    have h1 := h p (by simp)
    obtain ⟨b, hb⟩ := List.length_eq_one.mp h1
    have hrest : ∀ p' ∈ ps, (bs.filter (fun b => b.id == p'.branch_id)).length = 1 :=
      fun p' hp' => h p' (by simp [hp'])
    simp [joinList, hb, ih hrest]

theorem insertKeyDesc_map (f : α → β) (key : β → Nat) (a : α) (l : List α) :
    (insertKeyDesc (fun x => key (f x)) a l).map f = insertKeyDesc key (f a) (l.map f) := by
  induction l with
  | nil => rfl
  | cons b bs ih =>
    by_cases h : key (f b) < key (f a)
    · simp [insertKeyDesc, h]
    · simp [insertKeyDesc, h, ih]

theorem sortKeyDesc_map (f : α → β) (key : β → Nat) (l : List α) :
    (sortKeyDesc (fun x => key (f x)) l).map f = sortKeyDesc key (l.map f) := by
  induction l with
  | nil => rfl
  | cons a as ih => simp [sortKeyDesc, insertKeyDesc_map, ih]

theorem pageSlice_map (f : α → β) (n m : Nat) (l : List α) :
    (pageSlice n m l).map f = pageSlice n m (l.map f) := by
  simp [pageSlice, List.map_take, List.map_drop]

theorem head?_filter_eq_find? (p : α → Bool) (l : List α) :
    (l.filter p).head? = l.find? p := by
  induction l with
  | nil => rfl
  | cons a t ih =>
    by_cases h : p a
    · simp [List.filter_cons, List.find?_cons, h]
    · simp [List.filter_cons, List.find?_cons, h, ih]

/- ------------------------------------------------------------------ -/
/- The shape of the pagination block.                                  -/
/- ------------------------------------------------------------------ -/

theorem getProducts_pagination_shape (ft : String → String → Bool) (db : DB)
    (page pageSize : Nat) (q : Option String) :
    ∃ T, (getProducts ft db page pageSize q).pagination =
      { total_records := T
        current_page := page
        total_pages := (T + pageSize - 1) / pageSize
        next_page := if page < (T + pageSize - 1) / pageSize then some (page + 1) else none
        prev_page := if 1 < page then some (page - 1) else none } := by
  rcases q with _ | qs
  · exact ⟨db.products.length, rfl⟩
  · by_cases h : (qs != "" && jsTrim qs != "") = true
    · refine ⟨((joinRows db).filter
        (countPred ft qs ("%" ++ qs ++ "%"))).length, ?_⟩
      simp [getProducts, h]
    · refine ⟨db.products.length, ?_⟩
      simp [getProducts, h]

theorem selectAllProduct_pagination_shape (db : DB) (page pageSize : Nat) :
    (selectAllProduct db page pageSize).pagination =
      { total_records := db.products.length
        current_page := page
        total_pages := (db.products.length + pageSize - 1) / pageSize
        next_page := if page < (db.products.length + pageSize - 1) / pageSize then
          some (page + 1) else none
        prev_page := if 1 < page then some (page - 1) else none } := rfl

/-- Ceiling-division Galois characterization of the `total_pages` formula. -/
theorem totalPages_galois {ps : Nat} (hps : 1 ≤ ps) (tr k : Nat) :
    tr ≤ ps * k ↔ (tr + ps - 1) / ps ≤ k := by
  rw [Nat.div_le_iff_le_mul_add_pred (by omega : 0 < ps)]
  omega

/-- All the claimed pagination properties, for the block shape produced by
both listing methods. -/
theorem pagination_shape_correct {page pageSize T : Nat}
    (hpage : 1 ≤ page) (hps : 1 ≤ pageSize) :
    (T + pageSize - 1) / pageSize = T ⌈/⌉ pageSize
    ∧ (∀ k, T ≤ pageSize * k ↔ (T + pageSize - 1) / pageSize ≤ k)
    ∧ ((if page < (T + pageSize - 1) / pageSize then some (page + 1) else none)
        = some (page + 1) ↔ page < (T + pageSize - 1) / pageSize)
    ∧ ((if page < (T + pageSize - 1) / pageSize then some (page + 1) else none)
        = none ↔ (T + pageSize - 1) / pageSize ≤ page)
    ∧ ((if 1 < page then some (page - 1) else none) = some (page - 1) ↔ 1 < page)
    ∧ ((if 1 < page then some (page - 1) else none) = none ↔ page = 1) := by
  refine ⟨rfl, fun k => totalPages_galois hps T k, ?_, ?_, ?_, ?_⟩
  · by_cases h : page < (T + pageSize - 1) / pageSize <;> simp [h]
  · by_cases h : page < (T + pageSize - 1) / pageSize
    · simp [h]
    · simp [h]; omega
  · by_cases h : 1 < page <;> simp [h]
  · by_cases h : 1 < page
    · simp [h]; omega
    · simp [h]; omega

/-- C2: for every call to `getProducts` or `selectAllProduct` with
`page ≥ 1` and `pageSize ≥ 1`, the returned pagination block satisfies
`total_pages = ceil(total_records / pageSize)` (stated both as Mathlib's
ceiling division and by its Galois characterization), `next_page = page + 1`
exactly when `page < total_pages` and `null` otherwise, and
`prev_page = page - 1` exactly when `page > 1` and `null` otherwise. -/
theorem c2_pagination_correct (ft : String → String → Bool) (db : DB)
    (page pageSize : Nat) (q : Option String)
    (hpage : 1 ≤ page) (hps : 1 ≤ pageSize) :
    ((getProducts ft db page pageSize q).pagination.total_pages
        = (getProducts ft db page pageSize q).pagination.total_records ⌈/⌉ pageSize
      ∧ (∀ k, (getProducts ft db page pageSize q).pagination.total_records ≤ pageSize * k
          ↔ (getProducts ft db page pageSize q).pagination.total_pages ≤ k)
      ∧ ((getProducts ft db page pageSize q).pagination.next_page = some (page + 1)
          ↔ page < (getProducts ft db page pageSize q).pagination.total_pages)
      ∧ ((getProducts ft db page pageSize q).pagination.next_page = none
          ↔ (getProducts ft db page pageSize q).pagination.total_pages ≤ page)
      ∧ ((getProducts ft db page pageSize q).pagination.prev_page = some (page - 1)
          ↔ 1 < page)
      ∧ ((getProducts ft db page pageSize q).pagination.prev_page = none ↔ page = 1))
    ∧ ((selectAllProduct db page pageSize).pagination.total_pages
        = (selectAllProduct db page pageSize).pagination.total_records ⌈/⌉ pageSize
      ∧ (∀ k, (selectAllProduct db page pageSize).pagination.total_records ≤ pageSize * k
          ↔ (selectAllProduct db page pageSize).pagination.total_pages ≤ k)
      ∧ ((selectAllProduct db page pageSize).pagination.next_page = some (page + 1)
          ↔ page < (selectAllProduct db page pageSize).pagination.total_pages)
      ∧ ((selectAllProduct db page pageSize).pagination.next_page = none
          ↔ (selectAllProduct db page pageSize).pagination.total_pages ≤ page)
      ∧ ((selectAllProduct db page pageSize).pagination.prev_page = some (page - 1)
          ↔ 1 < page)
      ∧ ((selectAllProduct db page pageSize).pagination.prev_page = none ↔ page = 1)) := by
  constructor
  · obtain ⟨T, hT⟩ := getProducts_pagination_shape ft db page pageSize q
    rw [hT]
    exact pagination_shape_correct hpage hps
  · rw [selectAllProduct_pagination_shape]
    exact pagination_shape_correct hpage hps

/-- Witness for C2 at a concrete call. -/
theorem c2_witness :
    (1 ≤ 2 ∧ 1 ≤ 2)
    ∧ ((getProducts ftNone dbMain 2 2 none).pagination.next_page = none
        ↔ (getProducts ftNone dbMain 2 2 none).pagination.total_pages ≤ 2)
    ∧ ((selectAllProduct dbMain 2 2).pagination.prev_page = some 1 ↔ 1 < 2) :=
  ⟨⟨by decide, by decide⟩,
   (c2_pagination_correct ftNone dbMain 2 2 none (by decide) (by decide)).1.2.2.2.1,
   (c2_pagination_correct ftNone dbMain 2 2 none (by decide) (by decide)).2.2.2.2.2.1⟩

/-- C1 counterexample: `selectAllProduct` reads the `product` table directly
while `getProducts` (no query) inner-joins `branch`; on a database whose only
product has no matching branch, the two calls return different data rows
(even after discarding the `branch_name` enrichment), so the results are not
identical as the claim states.  The pagination blocks nevertheless agree. -/
theorem c1_counterexample :
    (getProducts ftNone dbNoBranch 1 10 none).data.map Prod.fst
      ≠ (selectAllProduct dbNoBranch 1 10).data
    ∧ (getProducts ftNone dbNoBranch 1 10 none).data = []
    ∧ (selectAllProduct dbNoBranch 1 10).data = [mkProd "001" "Milk 1L" 1 3] := by
  refine ⟨?_, ?_, ?_⟩ <;> decide

/-- C1 amended: for every `page` and `pageSize`, `selectAllProduct(page,
pageSize)` returns the same pagination block as `getProducts(page, pageSize)`
with no query; and whenever every product's `branch_id` matches exactly one
branch, the data rows also agree up to the join: the products underlying
`getProducts`' rows (which additionally carry `branch_name`) are exactly
`selectAllProduct`'s rows. -/
theorem c1_selectAllProduct_refines_getProducts
    (ft : String → String → Bool) (db : DB) (page pageSize : Nat)
    (h : ∀ p ∈ db.products, (db.branches.filter (fun b => b.id == p.branch_id)).length = 1) :
    (getProducts ft db page pageSize none).pagination
      = (selectAllProduct db page pageSize).pagination
    ∧ (getProducts ft db page pageSize none).data.map Prod.fst
      = (selectAllProduct db page pageSize).data := by
  constructor
  · rfl
  · show ((pageSlice pageSize ((page - 1) * pageSize)
      (sortKeyDesc (fun r => r.1.updated_at) (joinRows db))).map Prod.fst = _)
    rw [pageSlice_map]
    have hs : (sortKeyDesc (fun r : Product × String => r.1.updated_at) (joinRows db)).map
        Prod.fst = sortKeyDesc (fun p => p.updated_at) ((joinRows db).map Prod.fst) :=
      sortKeyDesc_map Prod.fst (fun p => p.updated_at) (joinRows db)
    rw [hs]
    simp only [joinRows]
    rw [map_fst_joinList h]
    rfl

/-- Witness for the amended C1 on a database where the join hypothesis holds. -/
theorem c1_witness :
    (∀ p ∈ dbMain.products,
      (dbMain.branches.filter (fun b => b.id == p.branch_id)).length = 1)
    ∧ (getProducts ftNone dbMain 1 1 none).data.map Prod.fst
      = (selectAllProduct dbMain 1 1).data :=
  ⟨by decide,
   (c1_selectAllProduct_refines_getProducts ftNone dbMain 1 1 (by decide)).2⟩

/-- C6: for a non-blank query, the `WHERE` predicate of the `COUNT` query is
identical to the `WHERE` predicate of the paginated data query (bound to the
same `fullText`/`ilikeText` parameters), so `total_records` is exactly the
number of rows of the filtered, pre-slice row set from which the returned
page is cut. -/
theorem c6_count_matches_data (ft : String → String → Bool) (db : DB)
    (page pageSize : Nat) (qs : String) (h : (qs != "" && jsTrim qs != "") = true) :
    (∀ a b r, countPred ft a b r = dataPred ft a b r)
    ∧ (getProducts ft db page pageSize (some qs)).pagination.total_records
        = ((joinRows db).filter (dataPred ft qs ("%" ++ qs ++ "%"))).length
    ∧ (getProducts ft db page pageSize (some qs)).data
        = pageSlice pageSize ((page - 1) * pageSize)
            (sortKeyDesc (fun r => r.1.updated_at)
              ((joinRows db).filter (dataPred ft qs ("%" ++ qs ++ "%")))) := by
  refine ⟨fun a b r => rfl, ?_, ?_⟩
  · simp only [getProducts, h]
    rfl
  · simp only [getProducts, h]
    rfl

/-- Witness for C6 at a concrete non-blank query. -/
theorem c6_witness :
    (("milk" != "" && jsTrim "milk" != "") = true)
    ∧ (getProducts ftNone dbMain 1 10 (some "milk")).pagination.total_records
        = ((joinRows dbMain).filter (dataPred ftNone "milk" ("%" ++ "milk" ++ "%"))).length :=
  ⟨by decide, (c6_count_matches_data ftNone dbMain 1 10 "milk" (by decide)).2.1⟩

/-- C8: with `q` absent, empty or all-whitespace, `getProducts` applies no
search filter: `total_records` counts every product and the data page is cut
from the (unfiltered) joined, sorted product rows; the call is moreover equal
to `getProducts` with no query at all. -/
theorem c8_blank_query_unfiltered (ft : String → String → Bool) (db : DB)
    (page pageSize : Nat) (q : Option String)
    (h : q = none ∨ ∃ s, q = some s ∧ jsTrim s = "") :
    (getProducts ft db page pageSize q).pagination.total_records = db.products.length
    ∧ (getProducts ft db page pageSize q).data
        = pageSlice pageSize ((page - 1) * pageSize)
            (sortKeyDesc (fun r => r.1.updated_at) (joinRows db))
    ∧ getProducts ft db page pageSize q = getProducts ft db page pageSize none := by
  rcases h with h | ⟨s, hq, hs⟩
  · subst h; exact ⟨rfl, rfl, rfl⟩
  · subst hq
    have hguard : (s != "" && jsTrim s != "") = false := by
      rw [hs]; simp
    refine ⟨?_, ?_, ?_⟩ <;> simp [getProducts, hguard]

/-- Witness for C8 with an all-whitespace query. -/
theorem c8_witness :
    ((some "   " : Option String) = none ∨ ∃ s, (some "   " : Option String) = some s ∧ jsTrim s = "")
    ∧ (getProducts ftNone dbMain 1 10 (some "   ")).pagination.total_records
        = dbMain.products.length :=
  ⟨Or.inr ⟨"   ", rfl, by decide⟩,
   (c8_blank_query_unfiltered ftNone dbMain 1 10 (some "   ")
      (Or.inr ⟨"   ", rfl, by decide⟩)).1⟩

/-- Membership in the nested-loop join. -/
theorem mem_joinList {bs : List Branch} {p : Product} {b : Branch} :
    ∀ {ps : List Product}, p ∈ ps → b ∈ bs → b.id = p.branch_id →
    (p, b.name) ∈ joinList bs ps := by
  intro ps
  induction ps with
  | nil => intro h; cases h
  | cons p' ps' ih =>
    intro hp hb hid
    rcases List.mem_cons.mp hp with h | h
    · subst h
      apply List.mem_append_left
      apply List.mem_map.mpr
      exact ⟨b, List.mem_filter.mpr ⟨hb, by simp [hid]⟩, rfl⟩
    · exact List.mem_append_right _ (ih h hb hid)

/-- C7: for every query `q` and product row whose `branch_id` has a matching
branch, if `q` is a case-insensitive substring of the row's `name` or of its
`barcode`, then the row is returned by `searchProduct(q)` and belongs to the
filtered row set of `getProducts`' data query — regardless of the full-text
condition (`ft` is arbitrary, so in particular when it does not match). -/
theorem c7_substring_matches (ft : String → String → Bool) (db : DB)
    (q : String) (p : Product) (hp : p ∈ db.products)
    (hb : ∃ b ∈ db.branches, b.id = p.branch_id)
    (hm : ciSub q p.name = true ∨ ciSub q p.barcode = true) :
    ∃ bn, (p, bn) ∈ searchProduct ft db q
      ∧ (p, bn) ∈ (joinRows db).filter (dataPred ft q ("%" ++ q ++ "%")) := by
  obtain ⟨b, hbmem, hbid⟩ := hb
  have hjoin : (p, b.name) ∈ joinRows db := mem_joinList hp hbmem hbid
  have hilike : ilike p.name ("%" ++ q ++ "%") = true ∨
      ilike p.barcode ("%" ++ q ++ "%") = true := by
    rcases hm with h | h
    · exact Or.inl (ilike_of_ciSub h)
    · exact Or.inr (ilike_of_ciSub h)
  refine ⟨b.name, ?_, ?_⟩
  · show (p, b.name) ∈ (joinRows db).filter (searchPred ft q ("%" ++ q ++ "%"))
    refine List.mem_filter.mpr ⟨hjoin, ?_⟩
    rcases hilike with h | h <;> simp [searchPred, h]
  · refine List.mem_filter.mpr ⟨hjoin, ?_⟩
    rcases hilike with h | h <;> simp [dataPred, h]

/-- Witness for C7: the query `"MILK"` (no full-text match) finds the product
named `"Milk 1L"` by case-insensitive substring. -/
theorem c7_witness :
    (mkProd "001" "Milk 1L" 1 3 ∈ dbMain.products)
    ∧ (ciSub "MILK" (mkProd "001" "Milk 1L" 1 3).name = true)
    ∧ ∃ bn, (mkProd "001" "Milk 1L" 1 3, bn) ∈ searchProduct ftNone dbMain "MILK" :=
  ⟨by decide, by decide,
   match c7_substring_matches ftNone dbMain "MILK" (mkProd "001" "Milk 1L" 1 3)
     (by decide) ⟨{ id := 1, name := "Main" }, by decide, by decide⟩
     (Or.inl (by decide)) with
   | ⟨bn, h1, _⟩ => ⟨bn, h1⟩⟩

/- ------------------------------------------------------------------ -/
/- Helper lemmas about `updateProduct`.                                -/
/- ------------------------------------------------------------------ -/

theorem updateProduct_empty {drv : List String → String} {db : DB} {bc : String}
    {u : UpdateData} (h : hasAnyField u = false) :
    updateProduct drv db bc u = (Except.error "Hech qanday field yuborilmadi!", db) := by
  simp [updateProduct, h]

theorem updateProduct_not_found {drv : List String → String} {db : DB} {bc : String}
    {u : UpdateData} (h : hasAnyField u = true)
    (hnone : ∀ p ∈ db.products, p.barcode ≠ bc) :
    (updateProduct drv db bc u).1
      = Except.error ("Product with barcode " ++ bc ++ " not found") := by
  have hfil : db.products.filter (fun p => p.barcode == bc) = [] :=
    List.filter_eq_nil_iff.mpr (fun p hp => by simpa using hnone p hp)
  simp [updateProduct, h, hfil]

theorem updateProduct_found {drv : List String → String} {db : DB} {bc : String}
    {u : UpdateData} (h : hasAnyField u = true) {p₀ : Product}
    (hfind : db.products.find? (fun p => p.barcode == bc) = some p₀) :
    (updateProduct drv db bc u).1 = Except.ok (applyU drv u p₀) := by
  have hh : ((db.products.filter (fun p => p.barcode == bc)).map (applyU drv u)).head?
      = some (applyU drv u p₀) := by
    rw [List.head?_map, head?_filter_eq_find?, hfind]; rfl
  simp [updateProduct, h, hh]

/-- The two error messages of `updateProduct` are distinct, whatever the
barcode. -/
theorem notFoundMsg_ne (bc : String) :
    "Product with barcode " ++ bc ++ " not found" ≠ "Hech qanday field yuborilmadi!" := by
  intro heq
  have h3 : ("Product with barcode " ++ bc ++ " not found").data.head? = some 'P' := rfl
  rw [heq] at h3
  exact absurd h3 (by decide)

/-- C4: `updateProduct(barcode, data)` raises the validation error when no
recognized field is supplied; raises the not-found error when some field is
supplied but no row matches `barcode`; and otherwise returns the updated
(first matching) row. -/
theorem c4_updateProduct_contract (drv : List String → String) (db : DB)
    (bc : String) (u : UpdateData) :
    (hasAnyField u = false →
      updateProduct drv db bc u = (Except.error "Hech qanday field yuborilmadi!", db))
    ∧ (hasAnyField u = true → (∀ p ∈ db.products, p.barcode ≠ bc) →
      (updateProduct drv db bc u).1
        = Except.error ("Product with barcode " ++ bc ++ " not found"))
    ∧ (hasAnyField u = true → ∀ p₀, db.products.find? (fun p => p.barcode == bc) = some p₀ →
      (updateProduct drv db bc u).1 = Except.ok (applyU drv u p₀)) :=
  ⟨fun h => updateProduct_empty h,
   fun h hn => updateProduct_not_found h hn,
   fun h _ hfind => updateProduct_found h hfind⟩

/-- Witness for C4: the three behaviours at concrete calls. -/
theorem c4_witness :
    (updateProduct drvJoin dbMain "001" ({} : UpdateData)).1
      = Except.error "Hech qanday field yuborilmadi!"
    ∧ (updateProduct drvJoin dbMain "zzz" { price := some 5 }).1
      = Except.error ("Product with barcode " ++ "zzz" ++ " not found")
    ∧ (updateProduct drvJoin dbMain "001" { price := some 5 }).1
      = Except.ok (applyU drvJoin { price := some 5 } (mkProd "001" "Milk 1L" 1 3)) := by
  refine ⟨?_, ?_, ?_⟩
  · exact congrArg Prod.fst
      ((c4_updateProduct_contract drvJoin dbMain "001" ({} : UpdateData)).1 (by decide))
  · exact (c4_updateProduct_contract drvJoin dbMain "zzz" { price := some 5 }).2.1
      (by decide) (by decide)
  · exact (c4_updateProduct_contract drvJoin dbMain "001" { price := some 5 }).2.2
      (by decide) (mkProd "001" "Milk 1L" 1 3) (by decide)

/-- C5: for a barcode with no matching row, `selectByIDProduct` and
`deleteProduct` return `none` (undefined) without raising — their types
cannot raise — and the database is left unchanged by the delete; by contrast
`updateProduct` (with a non-empty field set) raises the not-found error. -/
theorem c5_read_delete_miss (db : DB) (bc : String)
    (h : ∀ p ∈ db.products, p.barcode ≠ bc) :
    selectByIDProduct db bc = none
    ∧ (deleteProduct db bc).1 = none
    ∧ (deleteProduct db bc).2 = db
    ∧ (∀ drv u, hasAnyField u = true →
        (updateProduct drv db bc u).1
          = Except.error ("Product with barcode " ++ bc ++ " not found")) := by
  have hfil : db.products.filter (fun p => p.barcode == bc) = [] :=
    List.filter_eq_nil_iff.mpr (fun p hp => by simpa using h p hp)
  refine ⟨?_, ?_, ?_, ?_⟩
  · exact List.find?_eq_none.mpr (fun p hp => by simpa using h p hp)
  · simp [deleteProduct, hfil]
  · have hkeep : db.products.filter (fun p => !(p.barcode == bc)) = db.products :=
      List.filter_eq_self.mpr (fun p hp => by simpa using h p hp)
    simp [deleteProduct, hkeep]
  · exact fun drv u hu => updateProduct_not_found hu h

/-- Witness for C5 at a barcode absent from the database. -/
theorem c5_witness :
    (∀ p ∈ dbMain.products, p.barcode ≠ "zzz")
    ∧ selectByIDProduct dbMain "zzz" = none
    ∧ (deleteProduct dbMain "zzz").1 = none :=
  ⟨by decide, (c5_read_delete_miss dbMain "zzz" (by decide)).1,
   (c5_read_delete_miss dbMain "zzz" (by decide)).2.1⟩

/-- C9: whenever `updateProduct` raises the "no fields supplied" validation
error, the database state is unchanged — and indeed the validation happened
first: the supplied field set was empty, so the update statement was never
reached. -/
theorem c9_validation_before_statement (drv : List String → String) (db : DB)
    (bc : String) (u : UpdateData)
    (h : (updateProduct drv db bc u).1 = Except.error "Hech qanday field yuborilmadi!") :
    (updateProduct drv db bc u).2 = db ∧ hasAnyField u = false := by
  by_cases hf : hasAnyField u = true
  · exfalso
    rcases hhead : ((db.products.filter (fun p => p.barcode == bc)).map
        (applyU drv u)).head? with _ | r
    · have h1 : (updateProduct drv db bc u).1
          = Except.error ("Product with barcode " ++ bc ++ " not found") := by
        simp [updateProduct, hf, hhead]
      rw [h1] at h
      exact notFoundMsg_ne bc (Except.error.injEq _ _ ▸ (by injection h))
    · have h1 : (updateProduct drv db bc u).1 = Except.ok r := by
        simp [updateProduct, hf, hhead]
      rw [h1] at h
      cases h
  · have hf' : hasAnyField u = false := by
      cases hq : hasAnyField u
      · rfl
      · exact absurd hq hf
    exact ⟨congrArg Prod.snd (updateProduct_empty hf'), hf'⟩

/-- Witness for C9 at a concrete empty payload. -/
theorem c9_witness :
    (updateProduct drvJoin dbMain "001" ({} : UpdateData)).1
      = Except.error "Hech qanday field yuborilmadi!"
    ∧ (updateProduct drvJoin dbMain "001" ({} : UpdateData)).2 = dbMain :=
  ⟨rfl,
   (c9_validation_before_statement drvJoin dbMain "001" ({} : UpdateData) rfl).1⟩

/-- C3 counterexample: `updateProduct` does not coerce an empty `imageUrls`
to SQL NULL — updating a product with `imageUrls = []` stores the empty
array literal string (brace pair), not NULL. -/
theorem c3_counterexample :
    ((updateProduct drvJoin dbMain "001"
        { imageUrls := some ([] : List String) }).2.products.map Product.image
      = [some "\x7b\x7d", none])
    ∧ (some "\x7b\x7d" : Option String) ≠ none := by
  refine ⟨?_, ?_⟩ <;> decide

/-- C3 amended: `createProduct` stores an empty or absent `tegs`/`imageUrls`
as SQL NULL and serializes a non-empty one to a brace-wrapped literal of
double-quoted elements; `updateProduct`, however, serializes a supplied
`imageUrls` unconditionally (an empty list becomes the literal brace pair,
not NULL) and passes a supplied `tegs` through to the driver unserialized. -/
theorem c3_array_serialization (db : DB) (now : Nat) (d : CreateData)
    (drv : List String → String) (u : UpdateData) (p : Product) :
    (d.tegs = [] → (createProduct db now d).1.tegs = none)
    ∧ (d.tegs ≠ [] → (createProduct db now d).1.tegs = some (pgArrayLit d.tegs))
    ∧ ((d.imageUrls = none ∨ d.imageUrls = some []) → (createProduct db now d).1.image = none)
    ∧ (∀ l, d.imageUrls = some l → l ≠ [] →
        (createProduct db now d).1.image = some (pgArrayLit l))
    ∧ (∀ l, u.imageUrls = some l → (applyU drv u p).image = some (pgArrayLit l))
    ∧ (∀ t, u.tegs = some t → (applyU drv u p).tegs = some (drv t))
    ∧ pgArrayLit [] = "\x7b\x7d" := by
  refine ⟨?_, ?_, ?_, ?_, ?_, ?_, rfl⟩
  · intro h; simp [createProduct, h]
  · intro h
    have hlen : (d.tegs.length != 0) = true := by
      simp only [bne_iff_ne, ne_eq, List.length_eq_zero]
      exact h
    simp [createProduct, hlen]
  · intro h
    rcases h with h | h <;> simp [createProduct, h]
  · intro l hl hne
    have hlen : (l.length != 0) = true := by
      simp only [bne_iff_ne, ne_eq, List.length_eq_zero]
      exact hne
    simp [createProduct, hl, hlen]
  · intro l hl
    simp [applyU, hl, pgArrayLit]
  · intro t ht
    simp [applyU, ht]

/-- Witness for the amended C3 at concrete payloads. -/
theorem c3_witness :
    (createProduct dbMain 7
      { barcode := "x", name := "n", branch_id := 1, price := 1, stock := 1,
        category_id := 1, real_price := 1, tegs := [] }).1.tegs = none
    ∧ (createProduct dbMain 7
      { barcode := "x", name := "n", branch_id := 1, price := 1, stock := 1,
        category_id := 1, real_price := 1, tegs := ["new"],
        imageUrls := some ["u"] }).1.image = some (pgArrayLit ["u"])
    ∧ (applyU drvJoin { imageUrls := some ([] : List String) }
        (mkProd "001" "Milk 1L" 1 3)).image = some (pgArrayLit []) :=
  ⟨(c3_array_serialization dbMain 7
      { barcode := "x", name := "n", branch_id := 1, price := 1, stock := 1,
        category_id := 1, real_price := 1, tegs := [] }
      drvJoin {} (mkProd "001" "Milk 1L" 1 3)).1 rfl,
   (c3_array_serialization dbMain 7
      { barcode := "x", name := "n", branch_id := 1, price := 1, stock := 1,
        category_id := 1, real_price := 1, tegs := ["new"], imageUrls := some ["u"] }
      drvJoin {} (mkProd "001" "Milk 1L" 1 3)).2.2.2.1 ["u"] rfl (by decide),
   (c3_array_serialization dbMain 7
      { barcode := "x", name := "n", branch_id := 1, price := 1, stock := 1,
        category_id := 1, real_price := 1, tegs := ["new"] }
      drvJoin { imageUrls := some ([] : List String) }
      (mkProd "001" "Milk 1L" 1 3)).2.2.2.2.1 [] rfl⟩

/-- C10: `createProduct` coerces every falsy `description` — in particular
the empty string, not only an absent field — to SQL NULL, so a product
created with `description = ""` (under a fresh barcode) reads back via
`selectByIDProduct` as the inserted row with a `null` description. -/
theorem c10_empty_description_null (db : DB) (now : Nat) (d : CreateData)
    (hdesc : d.description = some "")
    (hbc : ∀ p ∈ db.products, p.barcode ≠ d.barcode) :
    (createProduct db now d).1.description = none
    ∧ selectByIDProduct (createProduct db now d).2 d.barcode
        = some (createProduct db now d).1 := by
  constructor
  · simp [createProduct, hdesc]
  · show ((db.products ++ [(createProduct db now d).1]).find?
      (fun p => p.barcode == d.barcode)) = _
    rw [List.find?_append]
    have h1 : db.products.find? (fun p => p.barcode == d.barcode) = none :=
      List.find?_eq_none.mpr (fun p hp => by simpa using hbc p hp)
    rw [h1, Option.none_or]
    have hbar : (createProduct db now d).1.barcode = d.barcode := rfl
    simp [List.find?, hbar]

/-- Witness for C10: a concrete create with `description = ""`. -/
theorem c10_witness :
    (createProduct dbMain 7
      { barcode := "999", name := "n", branch_id := 1, price := 1, stock := 1,
        category_id := 1, description := some "", real_price := 1,
        tegs := [] }).1.description = none
    ∧ selectByIDProduct (createProduct dbMain 7
      { barcode := "999", name := "n", branch_id := 1, price := 1, stock := 1,
        category_id := 1, description := some "", real_price := 1,
        tegs := [] }).2 "999"
      = some (createProduct dbMain 7
      { barcode := "999", name := "n", branch_id := 1, price := 1, stock := 1,
        category_id := 1, description := some "", real_price := 1,
        tegs := [] }).1 :=
  ⟨(c10_empty_description_null dbMain 7
      { barcode := "999", name := "n", branch_id := 1, price := 1, stock := 1,
        category_id := 1, description := some "", real_price := 1, tegs := [] }
      rfl (by decide)).1,
   (c10_empty_description_null dbMain 7
      { barcode := "999", name := "n", branch_id := 1, price := 1, stock := 1,
        category_id := 1, description := some "", real_price := 1, tegs := [] }
      rfl (by decide)).2⟩

end ScannerPOS
